import Mathlib

/-!
Verification of the unbuffered (sans-I/O) TLS connection state machine of
rustls (`src/rustls/src/conn/unbuffered.rs`), embedded shallowly.

The embedding covers:
* the status dispatcher `process_tls_records_common` (the loop that drains
  the early-data, inbound-plaintext and outbound-chunk queues before
  deframing new records from the incoming buffer);
* the role-typed guards `MustEncodeTlsData`, `MustTransmitTlsData`,
  `MayEncryptAppData`, `AppDataAvailable` and `EarlyDataAvailable` with
  their operations;
* the error enums `EncodeError` and `EncryptError`.

Machinery that the dispatcher calls but whose body lives outside the
sources at hand (the record deframer `ConnectionCore::deframe`, the
handshake engine `process_msg`, the chunk queues `ChunkVecBuffer`, and the
record-layer encryptors `eager_send_some_plaintext` /
`eager_send_close_notify`) is modelled from the specification; each such
definition carries a doc comment saying so.
-/

set_option autoImplicit false

namespace Rustls

/-- Byte strings are lists of bytes (values, not machine representation). -/
abbrev Bytes := List Nat

/-- The rustls `Error` enum, abstracted: the dispatcher never inspects an
error beyond cloning and storing it, except for the placeholder
`HandshakeNotComplete` used by the `mem::replace` idiom. -/
inductive TlsError where
  | handshakeNotComplete
  | code (n : Nat)
deriving DecidableEq, Repr

/-- Decidable equality for `Except`, needed to evaluate statuses with
`decide`. -/
def exceptDecEq {ε α : Type} [DecidableEq ε] [DecidableEq α] :
    (a b : Except ε α) → Decidable (a = b)
  | .ok a, .ok b =>
      if h : a = b then .isTrue (by rw [h])
      else .isFalse (by intro hh; cases hh; exact h rfl)
  | .ok _, .error _ => .isFalse (by intro hh; cases hh)
  | .error _, .ok _ => .isFalse (by intro hh; cases hh)
  | .error a, .error b =>
      if h : a = b then .isTrue (by rw [h])
      else .isFalse (by intro hh; cases hh; exact h rfl)

instance {ε α : Type} [DecidableEq ε] [DecidableEq α] : DecidableEq (Except ε α) :=
  exceptDecEq

/-- The flags and queues of `CommonState` that `unbuffered.rs` reads:
`received_plaintext`, `sendable_tls`, `has_received_close_notify`,
`may_send_application_data`. -/
structure CommonState where
  received_plaintext : List Bytes
  sendable_tls : List Bytes
  has_received_close_notify : Bool
  may_send_application_data : Bool
deriving DecidableEq, Repr

/-- `ConnectionCore`: the (opaque) handshake-engine state, stored as
`Ok state` or poisoned `Err e`, next to the common state. The engine state
itself is opaque to the dispatcher, so it is represented by `Unit`. -/
structure ConnCore where
  state : Except TlsError Unit
  common_state : CommonState
deriving DecidableEq, Repr

/-- `UnbufferedConnectionCommon<Data>`: the core plus the `wants_write`
flag, plus (for the server role) the queue of accepted early-data chunks
behind `pop_early_data`. For the client the early-data queue is unused. -/
structure Conn where
  core : ConnCore
  wants_write : Bool
  early_data : List Bytes
deriving DecidableEq, Repr

/-- Connection role: `process_tls_records` is instantiated once for
`ClientConnectionData` and once for `ServerConnectionData`. -/
inductive Role where
  | client
  | server
deriving DecidableEq, Repr

/-- Modelled from the spec: `ChunkVecBuffer::pop` — the outbound chunk
queue and the inbound plaintext queue are FIFO; `pop` removes and returns
the front chunk, or `none` when the queue is empty. -/
def popChunk : List Bytes → Option (Bytes × List Bytes)
  | [] => none
  | x :: xs => some (x, xs)

/-- Modelled from the spec: `ServerConnectionData::pop_early_data` pops one
pending early-data chunk, if any (server role only). -/
def Conn.pop_early_data (c : Conn) : Option (Bytes × Conn) :=
  match c.early_data with
  | [] => none
  | ch :: rest => some (ch, { c with early_data := rest })

/-- The `check` closure passed to `process_tls_records_common`: for the
client it always returns `none`; for the server it is `pop_early_data`. -/
def checkEarly : Role → Conn → Option (Bytes × Conn)
  | .client, _ => none
  | .server, c => c.pop_early_data

/-- `DeframerSliceBuffer`: a view of the caller's incoming buffer, with the
unparsed remainder and the pending-discard counter. -/
structure DeframerBuffer where
  remaining : Bytes
  discard : Nat
deriving DecidableEq, Repr

/-- `DeframerSliceBuffer::new`: wraps the incoming slice with a zero
pending-discard counter. -/
def DeframerBuffer.init (incoming : Bytes) : DeframerBuffer :=
  { remaining := incoming, discard := 0 }

/-- Consuming `n` bytes from the front of the deframer view: the consumed
bytes leave the remainder and are added to the pending-discard counter.
Only bytes actually present can be consumed. -/
def DeframerBuffer.consume (buf : DeframerBuffer) (n : Nat) : DeframerBuffer :=
  { remaining := buf.remaining.drop n
    discard := buf.discard + min n buf.remaining.length }

/-- Modelled from the spec: the effect of one successful
`ConnectionCore::process_msg` call on the connection — the engine may push
decrypted plaintext, encoded outbound chunks or early-data chunks onto the
queues, and may set the `has_received_close_notify`,
`may_send_application_data` and `wants_write` flags (all monotonically
within one call). -/
structure EngineUpdate where
  pushPlain : List Bytes
  pushSend : List Bytes
  pushEarly : List Bytes
  setCloseNotify : Bool
  setMaySend : Bool
  setWantsWrite : Bool
deriving DecidableEq, Repr

/-- Modelled from the spec: one outcome of reaching the deframer during the
dispatcher loop. `fail e n` is a deframing failure (malformed record, bad
tag, …) after consuming `n` bytes; `record n res` is a complete record
spanning `n` bytes of the buffer, which the handshake engine then processes
with outcome `res`. The end of the event list means no further complete
record is available. -/
inductive DeframeEvent where
  | fail (e : TlsError) (consumed : Nat)
  | record (consumed : Nat) (res : Except TlsError EngineUpdate)
deriving DecidableEq, Repr

/-- Applying a successful engine update to the connection. -/
def applyUpdate (c : Conn) (u : EngineUpdate) : Conn :=
  { core :=
      { state := .ok ()
        common_state :=
          { received_plaintext :=
              c.core.common_state.received_plaintext ++ u.pushPlain
            sendable_tls := c.core.common_state.sendable_tls ++ u.pushSend
            has_received_close_notify :=
              c.core.common_state.has_received_close_notify || u.setCloseNotify
            may_send_application_data :=
              c.core.common_state.may_send_application_data || u.setMaySend } }
    wants_write := c.wants_write || u.setWantsWrite
    early_data := c.early_data ++ u.pushEarly }

/-- Poisoning the engine: record the fatal error in `core.state`. -/
def poison (c : Conn) (e : TlsError) : Conn :=
  { c with core := { c.core with state := .error e } }

/-- The states of `ConnectionState` observable through the dispatcher, each
carrying the (at most one) chunk its guard wraps. -/
inductive ConnState where
  | appDataAvailable (chunk : Bytes)
  | connectionClosed
  | earlyDataAvailable (chunk : Bytes)
  | mustEncodeTlsData (chunk : Bytes)
  | mustTransmitTlsData
  | needsMoreTlsData (num_bytes : Option Nat)
  | trafficTransit
deriving DecidableEq, Repr

/-- `UnbufferedStatus { discard, state }` as returned by
`process_tls_records`. -/
structure UnbufferedStatus where
  discard : Nat
  state : Except TlsError ConnState
deriving DecidableEq, Repr

/-- The connection with its inbound plaintext queue replaced (the effect of
popping the front chunk). -/
def withPlain (c : Conn) (q : List Bytes) : Conn :=
  { c with core := { c.core with common_state :=
      { c.core.common_state with received_plaintext := q } } }

/-- The connection with its outbound chunk queue replaced (the effect of
popping the front chunk). -/
def withSend (c : Conn) (q : List Bytes) : Conn :=
  { c with core := { c.core with common_state :=
      { c.core.common_state with sendable_tls := q } } }

/-- The three queue checks at the top of each iteration of
`process_tls_records_common`, in the source's order: the early-data
closure (server role only), the inbound plaintext queue, the outbound
chunk queue. `some` is a status breaking out of the loop; `none` means all
three came up empty and the dispatcher goes on to deframe. -/
def queue_checks (role : Role) (c : Conn) (buf : DeframerBuffer) :
    Option (UnbufferedStatus × Conn) :=
  match checkEarly role c with
  | some (ch, c2) =>
      some ({ discard := buf.discard, state := .ok (.earlyDataAvailable ch) }, c2)
  | none =>
    match popChunk c.core.common_state.received_plaintext with
    | some (ch, rest) =>
        some ({ discard := buf.discard, state := .ok (.appDataAvailable ch) },
              withPlain c rest)
    | none =>
      match popChunk c.core.common_state.sendable_tls with
      | some (ch, rest) =>
          some ({ discard := buf.discard, state := .ok (.mustEncodeTlsData ch) },
                withSend c rest)
      | none => none

/-- The statuses of the final `else if` chain of the dispatcher, reached
when the queues are empty and no complete record is available:
`wants_write` wins, then `has_received_close_notify`, then
`may_send_application_data`, else `NeedsMoreTlsData { num_bytes: None }`. -/
def no_record_status (c : Conn) (buf : DeframerBuffer) :
    UnbufferedStatus × Conn :=
  if c.wants_write then
    ({ discard := buf.discard, state := .ok .mustTransmitTlsData }, c)
  else if c.core.common_state.has_received_close_notify then
    ({ discard := buf.discard, state := .ok .connectionClosed }, c)
  else if c.core.common_state.may_send_application_data then
    ({ discard := buf.discard, state := .ok .trafficTransit }, c)
  else
    ({ discard := buf.discard, state := .ok (.needsMoreTlsData none) }, c)

/-- The loop of `process_tls_records_common`. Each iteration runs the three
queue checks; only if all are empty does it reach the deframer, whose
outcomes are given by the event list (modelled from the spec, see
`DeframeEvent`); the end of the list means no further complete record. A
deframing failure returns the error (the deframer poisons the engine,
modelled from the spec); a complete record is fed to the engine through the
`mem::replace` idiom: an already-poisoned engine re-reports its stored
error, an engine failure poisons and returns, and a successful transition
loops back without returning. Returns the status together with the
connection as left behind by the call. -/
def process_loop (role : Role) :
    List DeframeEvent → Conn → DeframerBuffer → UnbufferedStatus × Conn
  | [], c, buf =>
    match queue_checks role c buf with
    | some r => r
    | none => no_record_status c buf
  | ev :: rest, c, buf =>
    match queue_checks role c buf with
    | some r => r
    | none =>
      match ev with
      | .fail e n =>
          ({ discard := (buf.consume n).discard, state := .error e }, poison c e)
      | .record n res =>
        match c.core.state with
        | .error e =>
            ({ discard := (buf.consume n).discard, state := .error e }, c)
        | .ok _ =>
          match res with
          | .error e =>
              ({ discard := (buf.consume n).discard, state := .error e },
               poison c e)
          | .ok u => process_loop role rest (applyUpdate c u) (buf.consume n)

/-- The deframe step of the dispatcher: what one iteration does once all
three queue checks have come up empty. -/
def deframe_branch (role : Role) (script : List DeframeEvent) (c : Conn)
    (buf : DeframerBuffer) : UnbufferedStatus × Conn :=
  match script with
  | [] => no_record_status c buf
  | ev :: rest =>
    match ev with
    | .fail e n =>
        ({ discard := (buf.consume n).discard, state := .error e }, poison c e)
    | .record n res =>
      match c.core.state with
      | .error e =>
          ({ discard := (buf.consume n).discard, state := .error e }, c)
      | .ok _ =>
        match res with
        | .error e =>
            ({ discard := (buf.consume n).discard, state := .error e },
             poison c e)
        | .ok u => process_loop role rest (applyUpdate c u) (buf.consume n)

/-- `process_tls_records`: wraps the incoming slice in a fresh deframer
view and runs the dispatcher loop. -/
def process_tls_records (role : Role) (c : Conn) (incoming : Bytes)
    (script : List DeframeEvent) : UnbufferedStatus × Conn :=
  process_loop role script c (DeframerBuffer.init incoming)

/-- `InsufficientSizeError { required_size }`. -/
structure InsufficientSizeError where
  required_size : Nat
deriving DecidableEq, Repr

/-- `EncodeError`: errors of `MustEncodeTlsData::encode`. -/
inductive EncodeError where
  | insufficientSize (e : InsufficientSizeError)
  | alreadyEncoded
deriving DecidableEq, Repr

/-- `EncryptError`: errors of `MayEncryptAppData::encrypt` and
`queue_close_notify`. -/
inductive EncryptError where
  | insufficientSize (e : InsufficientSizeError)
  | encryptExhausted
deriving DecidableEq, Repr

/-- The `MustEncodeTlsData` guard: the pending chunk (`Option`, taken on
success) together with the borrowed connection's `wants_write` flag, the
only connection field `encode` touches. -/
structure MustEncodeTlsData where
  chunk : Option Bytes
  wants_write : Bool
deriving DecidableEq, Repr

/-- `MustEncodeTlsData::new`: wraps a popped chunk, not yet encoded. -/
def MustEncodeTlsData.new (chunk : Bytes) (ww : Bool) : MustEncodeTlsData :=
  { chunk := some chunk, wants_write := ww }

/-- `MustEncodeTlsData::encode`: takes the pending chunk; with no chunk
left it fails with `AlreadyEncoded`; with a chunk larger than the output
buffer it restores the chunk and fails with `InsufficientSize`; otherwise
it copies the chunk into the front of the buffer, sets `wants_write` and
returns the byte count written. Returns (result, output buffer after the
call, guard after the call). -/
def MustEncodeTlsData.encode (g : MustEncodeTlsData) (outgoing_tls : Bytes) :
    Except EncodeError Nat × Bytes × MustEncodeTlsData :=
  match g.chunk with
  | none => (.error .alreadyEncoded, outgoing_tls, g)
  | some chunk =>
      let required_size := chunk.length
      if required_size > outgoing_tls.length then
        (.error (.insufficientSize ⟨required_size⟩), outgoing_tls,
         { g with chunk := some chunk })
      else
        (.ok chunk.length, chunk ++ outgoing_tls.drop chunk.length,
         { chunk := none, wants_write := true })

/-- The `MustTransmitTlsData` guard: borrows the connection. -/
structure MustTransmitTlsData where
  conn : Conn
deriving DecidableEq, Repr

/-- The `MayEncryptAppData` guard as handed out by the dispatcher and by
`MustTransmitTlsData::may_encrypt_app_data`: borrows the connection. -/
structure MayEncryptAppData where
  conn : Conn
deriving DecidableEq, Repr

/-- `MustTransmitTlsData::done`: clears the connection's `wants_write`
flag. -/
def MustTransmitTlsData.done (g : MustTransmitTlsData) : Conn :=
  { g.conn with wants_write := false }

/-- `MustTransmitTlsData::may_encrypt_app_data`: hands out a
`MayEncryptAppData` sub-guard exactly when `may_send_application_data` is
set. -/
def MustTransmitTlsData.may_encrypt_app_data (g : MustTransmitTlsData) :
    Option MayEncryptAppData :=
  if g.conn.core.common_state.may_send_application_data then
    some { conn := g.conn }
  else
    none

/-- Modelled from the spec: the record-layer encryptor state behind
`CommonState::eager_send_some_plaintext` / `eager_send_close_notify` (their
bodies are not under the sources at hand). `required` gives the encrypted
record size for a plaintext, `sealRec` the record bytes, `cnRequired` /
`cnBytes` the same for the close_notify alert, `exhausted` whether the AEAD
sequence space is used up, and `seq` the write sequence number. -/
structure RecordEncryptor where
  required : Bytes → Nat
  sealRec : Bytes → Bytes
  cnRequired : Nat
  cnBytes : Bytes
  exhausted : Bool
  seq : Nat

/-- Modelled from the spec: writing one encrypted record of `required`
bytes (`payload`) into the output buffer. With the sequence space exhausted
it fails with `EncryptExhausted`; with a buffer smaller than `required` it
fails with `InsufficientSize required` and modifies neither the buffer nor
the sequence number; otherwise it writes the record into the front of the
buffer and bumps the sequence number. Returns (result, output buffer after
the call, sequence number after the call). -/
def eagerSend (required : Nat) (payload : Bytes) (exhausted : Bool) (seq : Nat)
    (outgoing_tls : Bytes) : Except EncryptError Nat × Bytes × Nat :=
  if exhausted then (.error .encryptExhausted, outgoing_tls, seq)
  else if outgoing_tls.length < required then
    (.error (.insufficientSize ⟨required⟩), outgoing_tls, seq)
  else
    (.ok required, payload.take required ++ outgoing_tls.drop required, seq + 1)

/-- Modelled from the spec: `MayEncryptAppData::encrypt`, which delegates
to `CommonState::eager_send_some_plaintext`. -/
def MayEncryptAppData.encrypt (enc : RecordEncryptor)
    (application_data outgoing_tls : Bytes) :
    Except EncryptError Nat × Bytes × Nat :=
  eagerSend (enc.required application_data) (enc.sealRec application_data)
    enc.exhausted enc.seq outgoing_tls

/-- Modelled from the spec: `MayEncryptAppData::queue_close_notify`, which
delegates to `CommonState::eager_send_close_notify`. -/
def MayEncryptAppData.queue_close_notify (enc : RecordEncryptor)
    (outgoing_tls : Bytes) : Except EncryptError Nat × Bytes × Nat :=
  eagerSend enc.cnRequired enc.cnBytes enc.exhausted enc.seq outgoing_tls

/-- `NonZeroUsize::new`: `none` on zero. -/
def nonZeroUsizeNew (n : Nat) : Option Nat :=
  if n = 0 then none else some n

/-- `AppDataRecord { discard, payload }`. -/
structure AppDataRecord where
  discard : Nat
  payload : Bytes
deriving DecidableEq, Repr

/-- The `AppDataAvailable` guard: the decrypted chunk and the `taken`
flag. -/
structure AppDataAvailable where
  chunk : Bytes
  taken : Bool
deriving DecidableEq, Repr

/-- `AppDataAvailable::new`: wraps a popped plaintext chunk, not yet
taken. -/
def AppDataAvailable.new (chunk : Bytes) : AppDataAvailable :=
  { chunk := chunk, taken := false }

/-- `AppDataAvailable::next_record`: yields the chunk as a record with an
extra discard of 0 on the first call, `none` afterwards. Returns (result,
guard after the call). -/
def AppDataAvailable.next_record (g : AppDataAvailable) :
    Option (Except TlsError AppDataRecord) × AppDataAvailable :=
  if g.taken then (none, g)
  else (some (.ok { discard := 0, payload := g.chunk }), { g with taken := true })

/-- `AppDataAvailable::peek_len`: the chunk length as a `NonZeroUsize`,
`none` once taken. -/
def AppDataAvailable.peek_len (g : AppDataAvailable) : Option Nat :=
  if g.taken then none else nonZeroUsizeNew g.chunk.length

/-- The `EarlyDataAvailable` guard (server only): the early-data chunk and
the `taken` flag. -/
structure EarlyDataAvailable where
  chunk : Bytes
  taken : Bool
deriving DecidableEq, Repr

/-- `EarlyDataAvailable::new`: wraps a popped early-data chunk, not yet
taken. -/
def EarlyDataAvailable.new (chunk : Bytes) : EarlyDataAvailable :=
  { chunk := chunk, taken := false }

/-- `EarlyDataAvailable::next_record`: yields the chunk as a record with an
extra discard of 0 on the first call, `none` afterwards. -/
def EarlyDataAvailable.next_record (g : EarlyDataAvailable) :
    Option (Except TlsError AppDataRecord) × EarlyDataAvailable :=
  if g.taken then (none, g)
  else (some (.ok { discard := 0, payload := g.chunk }), { g with taken := true })

/-- `EarlyDataAvailable::peek_len`: the chunk length as a `NonZeroUsize`,
`none` once taken. -/
def EarlyDataAvailable.peek_len (g : EarlyDataAvailable) : Option Nat :=
  if g.taken then none else nonZeroUsizeNew g.chunk.length

/-- Number of chunks a `ConnState` carries: the chunk-bearing variants each
wrap exactly one chunk. -/
def ConnState.chunkCount : ConnState → Nat
  | .appDataAvailable _ => 1
  | .earlyDataAvailable _ => 1
  | .mustEncodeTlsData _ => 1
  | .connectionClosed => 0
  | .mustTransmitTlsData => 0
  | .needsMoreTlsData _ => 0
  | .trafficTransit => 0

/-- Number of chunks an `UnbufferedStatus` carries. -/
def UnbufferedStatus.chunkCount (s : UnbufferedStatus) : Nat :=
  match s.state with
  | .ok st => st.chunkCount
  | .error _ => 0

/-! Helper lemmas about the dispatcher. -/

/-- A `ConnState` carries at most one chunk. -/
theorem connState_chunk_le_one (s : ConnState) : s.chunkCount ≤ 1 := by
  cases s <;> simp [ConnState.chunkCount]

/-- Any status carries at most one chunk. -/
theorem status_chunk_le_one (s : UnbufferedStatus) :
    s.chunkCount ≤ 1 := by
  rcases s with ⟨d, st⟩
  cases st with
  | ok v => exact connState_chunk_le_one v
  | error e => simp [UnbufferedStatus.chunkCount]

/-- A successful queue check breaks out of the loop with its status. -/
theorem process_loop_queue_some (role : Role) (script : List DeframeEvent)
    (c : Conn) (buf : DeframerBuffer) (r : UnbufferedStatus × Conn)
    (h : queue_checks role c buf = some r) :
    process_loop role script c buf = r := by
  cases script <;> simp [process_loop, h]

/-- With all queues empty, one iteration of the loop is the deframe step. -/
theorem process_loop_queue_none (role : Role) (script : List DeframeEvent)
    (c : Conn) (buf : DeframerBuffer) (h : queue_checks role c buf = none) :
    process_loop role script c buf = deframe_branch role script c buf := by
  cases script <;> simp [process_loop, deframe_branch, h]

/-- Popping a chunk queue yields `none` exactly on the empty queue. -/
theorem popChunk_eq_none (l : List Bytes) : popChunk l = none ↔ l = [] := by
  cases l <;> simp [popChunk]

/-- A queue-check status keeps the pending discard and is an Ok state. -/
theorem queue_checks_some_shape (role : Role) (c : Conn) (buf : DeframerBuffer)
    (r : UnbufferedStatus × Conn) (h : queue_checks role c buf = some r) :
    r.1.discard = buf.discard
      ∧ ∃ st, r.1.state = .ok st ∧ st.chunkCount = 1 := by
  unfold queue_checks at h
  repeat' split at h
  · injection h with h; subst h; exact ⟨rfl, _, rfl, rfl⟩
  · injection h with h; subst h; exact ⟨rfl, _, rfl, rfl⟩
  · injection h with h; subst h; exact ⟨rfl, _, rfl, rfl⟩
  · cases h

/-- An empty queue check means all three sources are empty. -/
theorem queue_checks_none_shape (role : Role) (c : Conn) (buf : DeframerBuffer)
    (h : queue_checks role c buf = none) :
    checkEarly role c = none
      ∧ c.core.common_state.received_plaintext = []
      ∧ c.core.common_state.sendable_tls = [] := by
  unfold queue_checks at h
  repeat' split at h
  · cases h
  · cases h
  · cases h
  · simp_all [popChunk_eq_none]

/-- Conversely, empty queues make the queue check come up empty. -/
theorem queue_checks_eq_none (role : Role) (c : Conn) (buf : DeframerBuffer)
    (hE : checkEarly role c = none)
    (hP : c.core.common_state.received_plaintext = [])
    (hS : c.core.common_state.sendable_tls = []) :
    queue_checks role c buf = none := by
  simp [queue_checks, hE, hP, hS, popChunk]

/-- The fall-through statuses keep the pending discard, the connection, and
are Ok states. -/
theorem no_record_status_shape (c : Conn) (buf : DeframerBuffer) :
    ∃ st, no_record_status c buf
      = ({ discard := buf.discard, state := .ok st }, c) := by
  unfold no_record_status
  repeat' split
  all_goals exact ⟨_, rfl⟩

/-- Poisoning preserves the early-data queue, so an empty early-data check
stays empty. -/
theorem checkEarly_poison (role : Role) (c : Conn) (e : TlsError)
    (h : checkEarly role c = none) : checkEarly role (poison c e) = none := by
  cases role with
  | client => rfl
  | server =>
      cases hE : c.early_data with
      | nil => simp [checkEarly, Conn.pop_early_data, poison, hE]
      | cons a l => simp [checkEarly, Conn.pop_early_data, hE] at h

/-- Consuming bytes never increases the total of pending discard plus
remaining bytes. -/
theorem consume_invariant (buf : DeframerBuffer) (n : Nat) :
    (buf.consume n).discard + (buf.consume n).remaining.length
      ≤ buf.discard + buf.remaining.length := by
  simp only [DeframerBuffer.consume, List.length_drop]
  omega

/-- The discard of the loop's status is bounded by the pending discard plus
the remaining bytes of the view. -/
theorem process_loop_discard_le (role : Role) (script : List DeframeEvent) :
    ∀ (c : Conn) (buf : DeframerBuffer),
      (process_loop role script c buf).1.discard
        ≤ buf.discard + buf.remaining.length := by
  induction script with
  | nil =>
      intro c buf
      cases hq : queue_checks role c buf with
      | some r =>
          rw [process_loop_queue_some _ _ _ _ _ hq]
          have h1 := (queue_checks_some_shape _ _ _ _ hq).1
          omega
      | none =>
          rw [process_loop_queue_none _ _ _ _ hq]
          obtain ⟨st, hst⟩ := no_record_status_shape c buf
          simp [deframe_branch, hst]
  | cons ev rest ih =>
      intro c buf
      cases hq : queue_checks role c buf with
      | some r =>
          rw [process_loop_queue_some _ _ _ _ _ hq]
          have h1 := (queue_checks_some_shape _ _ _ _ hq).1
          omega
      | none =>
          rw [process_loop_queue_none _ _ _ _ hq]
          cases ev with
          | fail e n =>
              simp only [deframe_branch, DeframerBuffer.consume, List.length_drop]
              omega
          | record n res =>
              cases hst : c.core.state with
              | error e =>
                  simp only [deframe_branch, hst, DeframerBuffer.consume,
                    List.length_drop]
                  omega
              | ok u0 =>
                  cases res with
                  | error e =>
                      simp only [deframe_branch, hst, DeframerBuffer.consume,
                        List.length_drop]
                      omega
                  | ok u =>
                      simp only [deframe_branch, hst]
                      exact le_trans (ih (applyUpdate c u) (buf.consume n))
                        (consume_invariant buf n)

/-- Every error return of the loop leaves the engine poisoned with the
returned error. -/
theorem process_loop_error_state (role : Role) (script : List DeframeEvent) :
    ∀ (c : Conn) (buf : DeframerBuffer) (e : TlsError),
      (process_loop role script c buf).1.state = .error e →
      ((process_loop role script c buf).2).core.state = .error e := by
  induction script with
  | nil =>
      intro c buf e h
      cases hq : queue_checks role c buf with
      | some r =>
          rw [process_loop_queue_some _ _ _ _ _ hq] at h
          obtain ⟨-, st, hst, -⟩ := queue_checks_some_shape _ _ _ _ hq
          rw [hst] at h
          cases h
      | none =>
          rw [process_loop_queue_none _ _ _ _ hq] at h
          obtain ⟨st, hst⟩ := no_record_status_shape c buf
          simp [deframe_branch, hst] at h
  | cons ev rest ih =>
      intro c buf e h
      cases hq : queue_checks role c buf with
      | some r =>
          rw [process_loop_queue_some _ _ _ _ _ hq] at h
          obtain ⟨-, st, hst, -⟩ := queue_checks_some_shape _ _ _ _ hq
          rw [hst] at h
          cases h
      | none =>
          rw [process_loop_queue_none _ _ _ _ hq] at h ⊢
          cases ev with
          | fail e2 n =>
              simp only [deframe_branch] at h ⊢
              injection h with h
              subst h
              simp [poison]
          | record n res =>
              cases hst : c.core.state with
              | error e2 =>
                  simp only [deframe_branch, hst] at h ⊢
                  injection h with h
                  subst h
                  rfl
              | ok u0 =>
                  cases res with
                  | error e2 =>
                      simp only [deframe_branch, hst] at h ⊢
                      injection h with h
                      subst h
                      simp [poison]
                  | ok u =>
                      simp only [deframe_branch, hst] at h ⊢
                      exact ih (applyUpdate c u) (buf.consume n) e h

/-- `ConnectionClosed` is returned only when the inbound plaintext queue is
empty, both at the call and at the return. -/
theorem process_loop_closed_plain (role : Role) (script : List DeframeEvent) :
    ∀ (c : Conn) (buf : DeframerBuffer),
      (process_loop role script c buf).1.state = .ok .connectionClosed →
      c.core.common_state.received_plaintext = []
        ∧ ((process_loop role script c buf).2).core.common_state.received_plaintext
            = [] := by
  induction script with
  | nil =>
      intro c buf h
      cases hq : queue_checks role c buf with
      | some r =>
          rw [process_loop_queue_some _ _ _ _ _ hq] at h
          obtain ⟨-, st, hst, hcc⟩ := queue_checks_some_shape _ _ _ _ hq
          rw [hst] at h
          injection h with h
          subst h
          simp [ConnState.chunkCount] at hcc
      | none =>
          obtain ⟨-, hP, -⟩ := queue_checks_none_shape _ _ _ hq
          rw [process_loop_queue_none _ _ _ _ hq]
          obtain ⟨st, hst⟩ := no_record_status_shape c buf
          simp [deframe_branch, hst]
          exact hP
  | cons ev rest ih =>
      intro c buf h
      cases hq : queue_checks role c buf with
      | some r =>
          rw [process_loop_queue_some _ _ _ _ _ hq] at h
          obtain ⟨-, st, hst, hcc⟩ := queue_checks_some_shape _ _ _ _ hq
          rw [hst] at h
          injection h with h
          subst h
          simp [ConnState.chunkCount] at hcc
      | none =>
          obtain ⟨-, hP, -⟩ := queue_checks_none_shape _ _ _ hq
          rw [process_loop_queue_none _ _ _ _ hq] at h ⊢
          cases ev with
          | fail e2 n =>
              simp only [deframe_branch] at h
              cases h
          | record n res =>
              cases hst : c.core.state with
              | error e2 =>
                  simp only [deframe_branch, hst] at h
                  cases h
              | ok u0 =>
                  cases res with
                  | error e2 =>
                      simp only [deframe_branch, hst] at h
                      cases h
                  | ok u =>
                      simp only [deframe_branch, hst] at h ⊢
                      exact ⟨hP, (ih (applyUpdate c u) (buf.consume n) h).2⟩

/-! Claim theorems about the guards. -/

/-- Claim C5: calling `MustEncodeTlsData::encode` with a zero-length (or
otherwise too-small) output buffer returns `InsufficientSize R` with
`R > 0`, and calling it again on the same guard with a buffer of length at
least `R` succeeds and writes exactly `R` bytes; `R` equals the exact byte
count the successful call writes. (The pending chunk of a
`MustEncodeTlsData` guard is a non-empty encoded record, hence the
`0 < ch.length` hypothesis.) -/
theorem encode_insufficient_size_exact (ch small out : Bytes) (ww : Bool)
    (hch : 0 < ch.length) (hsmall : small.length < ch.length)
    (hout : ch.length ≤ out.length) :
    (MustEncodeTlsData.new ch ww).encode small
      = (.error (.insufficientSize ⟨ch.length⟩), small, MustEncodeTlsData.new ch ww)
    ∧ 0 < ch.length
    ∧ ((MustEncodeTlsData.new ch ww).encode out).1 = .ok ch.length
    ∧ ((MustEncodeTlsData.new ch ww).encode out).2.1 = ch ++ out.drop ch.length
    ∧ ((MustEncodeTlsData.new ch ww).encode out).2.1.length = out.length
    ∧ ((MustEncodeTlsData.new ch ww).encode out).2.1.take ch.length = ch := by
  have hnot : ¬ (ch.length > out.length) := not_lt.mpr hout
  refine ⟨?_, hch, ?_, ?_, ?_, ?_⟩
  · simp [MustEncodeTlsData.new, MustEncodeTlsData.encode, gt_iff_lt, hsmall]
  · simp [MustEncodeTlsData.new, MustEncodeTlsData.encode, hnot]
  · simp [MustEncodeTlsData.new, MustEncodeTlsData.encode, hnot]
  · simp [MustEncodeTlsData.new, MustEncodeTlsData.encode, hnot]
    omega
  · simp [MustEncodeTlsData.new, MustEncodeTlsData.encode, hnot, List.take_left]

/-- Claim C5 witness: the pending chunk `[1, 2, 3]` reports
`InsufficientSize 3` on an empty buffer and a 4-byte retry writes exactly 3
bytes. -/
theorem encode_insufficient_size_exact_witness :
    (MustEncodeTlsData.new [1, 2, 3] false).encode []
      = (.error (.insufficientSize ⟨3⟩), [], MustEncodeTlsData.new [1, 2, 3] false)
    ∧ 0 < ([1, 2, 3] : Bytes).length
    ∧ ((MustEncodeTlsData.new [1, 2, 3] false).encode [7, 7, 7, 7]).1 = .ok 3
    ∧ ((MustEncodeTlsData.new [1, 2, 3] false).encode [7, 7, 7, 7]).2.1
        = [1, 2, 3] ++ ([7, 7, 7, 7] : Bytes).drop 3
    ∧ ((MustEncodeTlsData.new [1, 2, 3] false).encode [7, 7, 7, 7]).2.1.length
        = ([7, 7, 7, 7] : Bytes).length
    ∧ ((MustEncodeTlsData.new [1, 2, 3] false).encode [7, 7, 7, 7]).2.1.take 3
        = [1, 2, 3] :=
  encode_insufficient_size_exact [1, 2, 3] [] [7, 7, 7, 7] false (by decide)
    (by decide) (by decide)

/-- Claim C6: `encode` consumes its pending chunk only on success: after an
`InsufficientSize` failure the chunk is retained and a retry is permitted;
after a success the connection's `wants_write` flag is set and a second
call on the same guard returns `AlreadyEncoded` without writing
anything. -/
theorem encode_consumes_chunk_only_on_success (ch small out : Bytes) (ww : Bool)
    (hsmall : small.length < ch.length) (hout : ch.length ≤ out.length) :
    ((MustEncodeTlsData.new ch ww).encode small).2.2 = MustEncodeTlsData.new ch ww
    ∧ ((MustEncodeTlsData.new ch ww).encode small).2.1 = small
    ∧ ((MustEncodeTlsData.new ch ww).encode out).2.2
        = { chunk := none, wants_write := true }
    ∧ (∀ out2 : Bytes,
        (MustEncodeTlsData.mk none true).encode out2
          = (.error .alreadyEncoded, out2, MustEncodeTlsData.mk none true)) := by
  have hnot : ¬ (ch.length > out.length) := not_lt.mpr hout
  refine ⟨?_, ?_, ?_, ?_⟩
  · simp [MustEncodeTlsData.new, MustEncodeTlsData.encode, gt_iff_lt, hsmall]
  · simp [MustEncodeTlsData.new, MustEncodeTlsData.encode, gt_iff_lt, hsmall]
  · simp [MustEncodeTlsData.new, MustEncodeTlsData.encode, hnot]
  · intro out2
    simp [MustEncodeTlsData.encode]

/-- Claim C6 witness: the chunk `[4, 5]` is retained after a failed encode
into a 1-byte buffer, and consumed by a successful encode into a 2-byte
buffer, after which the guard reports `AlreadyEncoded`. -/
theorem encode_consumes_chunk_only_on_success_witness :
    ((MustEncodeTlsData.new [4, 5] false).encode [0]).2.2
        = MustEncodeTlsData.new [4, 5] false
    ∧ ((MustEncodeTlsData.new [4, 5] false).encode [0]).2.1 = [0]
    ∧ ((MustEncodeTlsData.new [4, 5] false).encode [0, 0]).2.2
        = { chunk := none, wants_write := true }
    ∧ (∀ out2 : Bytes,
        (MustEncodeTlsData.mk none true).encode out2
          = (.error .alreadyEncoded, out2, MustEncodeTlsData.mk none true)) :=
  encode_consumes_chunk_only_on_success [4, 5] [0] [0, 0] false (by decide)
    (by decide)

/-- Claim C7: when `encode`, `encrypt` or `queue_close_notify` fails with
`InsufficientSize`, neither the caller's outgoing buffer nor the
connection state is modified: each operation returns its buffer, guard and
sequence number unchanged, so it may be retried. (`encrypt` and
`queue_close_notify` delegate to the record layer, modelled from the
spec.) -/
theorem insufficient_size_is_atomic (ch small : Bytes) (ww : Bool)
    (enc : RecordEncryptor) (p out1 out2 : Bytes)
    (hsmall : small.length < ch.length)
    (hex : enc.exhausted = false)
    (henc : out1.length < enc.required p)
    (hcn : out2.length < enc.cnRequired) :
    (MustEncodeTlsData.new ch ww).encode small
      = (.error (.insufficientSize ⟨ch.length⟩), small, MustEncodeTlsData.new ch ww)
    ∧ MayEncryptAppData.encrypt enc p out1
      = (.error (.insufficientSize ⟨enc.required p⟩), out1, enc.seq)
    ∧ MayEncryptAppData.queue_close_notify enc out2
      = (.error (.insufficientSize ⟨enc.cnRequired⟩), out2, enc.seq) := by
  refine ⟨?_, ?_, ?_⟩
  · simp [MustEncodeTlsData.new, MustEncodeTlsData.encode, gt_iff_lt, hsmall]
  · simp [MayEncryptAppData.encrypt, eagerSend, hex, henc]
  · simp [MayEncryptAppData.queue_close_notify, eagerSend, hex, hcn]

/-- Claim C7 witness: a concrete record layer whose encrypted records are 5
bytes longer than the plaintext; all three operations fail atomically on
too-small buffers. -/
theorem insufficient_size_is_atomic_witness :
    (MustEncodeTlsData.new [1, 2] true).encode []
      = (.error (.insufficientSize ⟨2⟩), [], MustEncodeTlsData.new [1, 2] true)
    ∧ MayEncryptAppData.encrypt
        ⟨fun b => b.length + 5, fun b => 23 :: b, 7, [21, 0, 0, 0, 0, 1, 0], false, 11⟩
        [8] [0, 0]
      = (.error (.insufficientSize ⟨6⟩), [0, 0], 11)
    ∧ MayEncryptAppData.queue_close_notify
        ⟨fun b => b.length + 5, fun b => 23 :: b, 7, [21, 0, 0, 0, 0, 1, 0], false, 11⟩
        [0, 0, 0]
      = (.error (.insufficientSize ⟨7⟩), [0, 0, 0], 11) :=
  insufficient_size_is_atomic [1, 2] [] true
    ⟨fun b => b.length + 5, fun b => 23 :: b, 7, [21, 0, 0, 0, 0, 1, 0], false, 11⟩
    [8] [0, 0] [0, 0, 0] (by decide) rfl (by norm_num) (by norm_num)

/-- Claim C9: `MustTransmitTlsData::may_encrypt_app_data` returns a
sub-guard exactly when `may_send_application_data` is set, and
`MustTransmitTlsData::done` clears the connection's `wants_write` flag. -/
theorem transmit_subguard_iff_may_send (c : Conn) :
    ((MustTransmitTlsData.mk c).may_encrypt_app_data.isSome
        = c.core.common_state.may_send_application_data)
    ∧ ((MustTransmitTlsData.mk c).may_encrypt_app_data
        = if c.core.common_state.may_send_application_data then
            some (MayEncryptAppData.mk c)
          else none)
    ∧ (MustTransmitTlsData.mk c).done.wants_write = false := by
  refine ⟨?_, rfl, rfl⟩
  by_cases h : c.core.common_state.may_send_application_data <;>
    simp [MustTransmitTlsData.may_encrypt_app_data, h]

/-- Claim C10: for `AppDataAvailable` and `EarlyDataAvailable` guards, the
first `next_record` call returns exactly one record whose extra `discard`
is 0, every later call returns `none`, and `peek_len` returns `none` both
once the record has been taken and when the pending payload is empty, even
before it is taken. -/
theorem next_record_exactly_once :
    (∀ ch : Bytes, (AppDataAvailable.new ch).next_record
        = (some (.ok { discard := 0, payload := ch }),
           AppDataAvailable.mk ch true))
    ∧ (∀ ch : Bytes, (AppDataAvailable.mk ch true).next_record
        = (none, AppDataAvailable.mk ch true))
    ∧ (∀ ch : Bytes, (AppDataAvailable.mk ch true).peek_len = none)
    ∧ (AppDataAvailable.new []).peek_len = none
    ∧ (∀ ch : Bytes, (EarlyDataAvailable.new ch).next_record
        = (some (.ok { discard := 0, payload := ch }),
           EarlyDataAvailable.mk ch true))
    ∧ (∀ ch : Bytes, (EarlyDataAvailable.mk ch true).next_record
        = (none, EarlyDataAvailable.mk ch true))
    ∧ (∀ ch : Bytes, (EarlyDataAvailable.mk ch true).peek_len = none)
    ∧ (EarlyDataAvailable.new []).peek_len = none := by
  refine ⟨?_, ?_, ?_, ?_, ?_, ?_, ?_, ?_⟩ <;>
    simp [AppDataAvailable.new, AppDataAvailable.next_record,
      AppDataAvailable.peek_len, EarlyDataAvailable.new,
      EarlyDataAvailable.next_record, EarlyDataAvailable.peek_len,
      nonZeroUsizeNew]

/-! Claim theorems about the dispatcher. -/

/-- Claim C2: on every advance the dispatcher checks, in priority order
before deframing: first a pending early-data chunk (server role only,
yielding `EarlyDataAvailable`), second the inbound plaintext queue
(yielding `AppDataAvailable` with one popped chunk), third the outbound
chunk queue (yielding `MustEncodeTlsData` with one popped chunk); only
when all three are empty does it attempt to deframe from the incoming
buffer, and each returned status carries at most one chunk. -/
theorem dispatcher_priority_order (role : Role) (c : Conn) (incoming : Bytes)
    (script : List DeframeEvent) :
    (∀ (ch : Bytes) (c2 : Conn), checkEarly role c = some (ch, c2) →
        role = .server
          ∧ process_tls_records role c incoming script
              = ({ discard := 0, state := .ok (.earlyDataAvailable ch) }, c2))
    ∧ (∀ (ch : Bytes) (rest : List Bytes), checkEarly role c = none →
        c.core.common_state.received_plaintext = ch :: rest →
        process_tls_records role c incoming script
          = ({ discard := 0, state := .ok (.appDataAvailable ch) },
             withPlain c rest))
    ∧ (∀ (ch : Bytes) (rest : List Bytes), checkEarly role c = none →
        c.core.common_state.received_plaintext = [] →
        c.core.common_state.sendable_tls = ch :: rest →
        process_tls_records role c incoming script
          = ({ discard := 0, state := .ok (.mustEncodeTlsData ch) },
             withSend c rest))
    ∧ (checkEarly role c = none →
        c.core.common_state.received_plaintext = [] →
        c.core.common_state.sendable_tls = [] →
        process_tls_records role c incoming script
          = deframe_branch role script c (DeframerBuffer.init incoming))
    ∧ (process_tls_records role c incoming script).1.chunkCount ≤ 1 := by
  refine ⟨?_, ?_, ?_, ?_, ?_⟩
  · intro ch c2 hE
    refine ⟨?_, ?_⟩
    · cases role with
      | client => simp [checkEarly] at hE
      | server => rfl
    · exact process_loop_queue_some _ _ _ _ _
        (by simp [queue_checks, hE, DeframerBuffer.init])
  · intro ch rest hE hP
    exact process_loop_queue_some _ _ _ _ _
      (by simp [queue_checks, hE, hP, popChunk, DeframerBuffer.init])
  · intro ch rest hE hP hS
    exact process_loop_queue_some _ _ _ _ _
      (by simp [queue_checks, hE, hP, hS, popChunk, DeframerBuffer.init])
  · intro hE hP hS
    exact process_loop_queue_none _ _ _ _ (queue_checks_eq_none _ _ _ hE hP hS)
  · exact status_chunk_le_one (process_tls_records role c incoming script).1

/-- Claim C2 witness: a server connection with a pending early-data chunk,
a queued plaintext chunk and a queued outbound chunk yields
`EarlyDataAvailable` with the early-data chunk. -/
theorem dispatcher_priority_order_witness :
    Role.server = Role.server
    ∧ process_tls_records .server
        ⟨⟨.ok (), ⟨[[1]], [[2]], false, false⟩⟩, false, [[9]]⟩ [] []
        = ({ discard := 0, state := .ok (.earlyDataAvailable [9]) },
           ⟨⟨.ok (), ⟨[[1]], [[2]], false, false⟩⟩, false, []⟩) :=
  (dispatcher_priority_order .server
      ⟨⟨.ok (), ⟨[[1]], [[2]], false, false⟩⟩, false, [[9]]⟩ [] []).1
    [9] ⟨⟨.ok (), ⟨[[1]], [[2]], false, false⟩⟩, false, []⟩ rfl

/-- Claim C8: for every call to `process_tls_records` and every returned
status — whether its state is Ok or Err — the `discard` field is at most
the length of the incoming buffer passed into that call. -/
theorem discard_le_incoming_len (role : Role) (c : Conn) (incoming : Bytes)
    (script : List DeframeEvent) :
    (process_tls_records role c incoming script).1.discard ≤ incoming.length := by
  have h := process_loop_discard_le role script c (DeframerBuffer.init incoming)
  simpa [DeframerBuffer.init, process_tls_records] using h

/-- Claim C1 counterexample: a connection is fed one malformed record and
`process_tls_records` returns a protocol error; the next call, on the same
connection with an empty incoming buffer, returns an Ok status
(`NeedsMoreTlsData`) rather than the same error — so the error is not
re-reported on every subsequent call. -/
theorem sticky_error_counterexample :
    ((process_tls_records .client ⟨⟨.ok (), ⟨[], [], false, false⟩⟩, false, []⟩
        [1, 2, 3, 4, 5] [.record 5 (.error (.code 7))]).1.state
      = .error (.code 7))
    ∧ ((process_tls_records .client
          (process_tls_records .client
            ⟨⟨.ok (), ⟨[], [], false, false⟩⟩, false, []⟩
            [1, 2, 3, 4, 5] [.record 5 (.error (.code 7))]).2
          [] []).1.state
        = .ok (.needsMoreTlsData none)) := by
  decide

/-- Claim C1 (amended): once `process_tls_records` returns an error `E` in
its state field the engine is left poisoned with `E`, and every subsequent
call on that connection in which the dispatcher reaches the deframer and
obtains a complete record returns the same error `E`, leaving the
connection unchanged. -/
theorem sticky_error (role : Role) (c : Conn) (incoming : Bytes)
    (script : List DeframeEvent) (e : TlsError) :
    ((process_tls_records role c incoming script).1.state = .error e →
      ((process_tls_records role c incoming script).2).core.state = .error e)
    ∧ (∀ (role2 : Role) (c2 : Conn) (inc2 : Bytes) (n : Nat)
        (res : Except TlsError EngineUpdate) (rest : List DeframeEvent),
        c2.core.state = .error e →
        checkEarly role2 c2 = none →
        c2.core.common_state.received_plaintext = [] →
        c2.core.common_state.sendable_tls = [] →
        process_tls_records role2 c2 inc2 (.record n res :: rest)
          = ({ discard := min n inc2.length, state := .error e }, c2)) := by
  refine ⟨?_, ?_⟩
  · exact process_loop_error_state role script c (DeframerBuffer.init incoming) e
  · intro role2 c2 inc2 n res rest hpois hE hP hS
    have hq := queue_checks_eq_none role2 c2 (DeframerBuffer.init inc2) hE hP hS
    have h1 := process_loop_queue_none role2 (.record n res :: rest) c2
      (DeframerBuffer.init inc2) hq
    show process_loop role2 (.record n res :: rest) c2 (DeframerBuffer.init inc2)
      = _
    rw [h1]
    simp [deframe_branch, hpois, DeframerBuffer.consume, DeframerBuffer.init]

/-- Claim C1 witness: a poisoned connection re-reports its stored error on
the next record-bearing advance. -/
theorem sticky_error_witness :
    ((process_tls_records .client ⟨⟨.ok (), ⟨[], [], false, false⟩⟩, false, []⟩
        [1, 2, 3, 4, 5] [.record 5 (.error (.code 7))]).2).core.state
      = .error (.code 7) :=
  (sticky_error .client ⟨⟨.ok (), ⟨[], [], false, false⟩⟩, false, []⟩
      [1, 2, 3, 4, 5] [.record 5 (.error (.code 7))] (.code 7)).1 (by decide)

/-- Claim C3 counterexample: a connection that has received close_notify,
has no pending plaintext, but whose `wants_write` flag is set, returns
`MustTransmitTlsData` on the next advance — neither `ConnectionClosed` nor
`AppDataAvailable`. -/
theorem close_notify_counterexample :
    ((⟨⟨.ok (), ⟨[], [], true, false⟩⟩, true, []⟩ : Conn)
        |>.core.common_state.has_received_close_notify) = true
    ∧ ((⟨⟨.ok (), ⟨[], [], true, false⟩⟩, true, []⟩ : Conn)
        |>.core.common_state.received_plaintext) = []
    ∧ (process_tls_records .client
          ⟨⟨.ok (), ⟨[], [], true, false⟩⟩, true, []⟩ [] []).1.state
        = .ok .mustTransmitTlsData := by
  decide

/-- Claim C3 (amended): once `has_received_close_notify` is set, any
still-pending plaintext chunk is delivered first via `AppDataAvailable`;
an advance finding no pending chunks, no complete record and a clear
`wants_write` flag returns `ConnectionClosed`; and the connection never
returns `ConnectionClosed` while the inbound plaintext queue is non-empty
(neither at the call nor at the return). -/
theorem close_notify_drain (role : Role) (c : Conn) (incoming : Bytes)
    (script : List DeframeEvent) :
    (∀ (ch : Bytes) (rest : List Bytes),
        c.core.common_state.has_received_close_notify = true →
        checkEarly role c = none →
        c.core.common_state.received_plaintext = ch :: rest →
        process_tls_records role c incoming script
          = ({ discard := 0, state := .ok (.appDataAvailable ch) },
             withPlain c rest))
    ∧ (c.core.common_state.has_received_close_notify = true →
        checkEarly role c = none →
        c.core.common_state.received_plaintext = [] →
        c.core.common_state.sendable_tls = [] →
        c.wants_write = false →
        script = [] →
        process_tls_records role c incoming script
          = ({ discard := 0, state := .ok .connectionClosed }, c))
    ∧ ((process_tls_records role c incoming script).1.state
          = .ok .connectionClosed →
        c.core.common_state.received_plaintext = []
          ∧ ((process_tls_records role c incoming
                script).2).core.common_state.received_plaintext = []) := by
  refine ⟨?_, ?_, ?_⟩
  · intro ch rest _ hE hP
    exact process_loop_queue_some _ _ _ _ _
      (by simp [queue_checks, hE, hP, popChunk, DeframerBuffer.init])
  · intro hcn hE hP hS hww hscript
    subst hscript
    have hq := queue_checks_eq_none role c (DeframerBuffer.init incoming) hE hP hS
    have h1 := process_loop_queue_none role [] c (DeframerBuffer.init incoming) hq
    show process_loop role [] c (DeframerBuffer.init incoming) = _
    rw [h1]
    simp [deframe_branch, no_record_status, hww, hcn, DeframerBuffer.init]
  · exact process_loop_closed_plain role script c (DeframerBuffer.init incoming)

/-- Claim C3 witness: a connection that has received close_notify and still
holds one plaintext chunk delivers it via `AppDataAvailable`; drained and
with `wants_write` clear, it then returns `ConnectionClosed`. -/
theorem close_notify_drain_witness :
    (process_tls_records .client ⟨⟨.ok (), ⟨[[5]], [], true, false⟩⟩, false, []⟩
        [] []
      = ({ discard := 0, state := .ok (.appDataAvailable [5]) },
         withPlain ⟨⟨.ok (), ⟨[[5]], [], true, false⟩⟩, false, []⟩ []))
    ∧ (process_tls_records .client ⟨⟨.ok (), ⟨[], [], true, false⟩⟩, false, []⟩
        [] []
      = ({ discard := 0, state := .ok .connectionClosed },
         ⟨⟨.ok (), ⟨[], [], true, false⟩⟩, false, []⟩)) :=
  ⟨(close_notify_drain .client ⟨⟨.ok (), ⟨[[5]], [], true, false⟩⟩, false, []⟩
      [] []).1 [5] [] rfl rfl rfl,
   (close_notify_drain .client ⟨⟨.ok (), ⟨[], [], true, false⟩⟩, false, []⟩
      [] []).2.1 rfl rfl rfl rfl rfl rfl⟩

/-- Claim C4 counterexample: after a deframing failure poisons the engine,
an advance with an empty incoming buffer returns an Ok status
(`NeedsMoreTlsData`) rather than re-reporting the error — the error is
re-reported only by advances that obtain a complete record. -/
theorem deframe_error_counterexample :
    ((process_tls_records .client ⟨⟨.ok (), ⟨[], [], false, false⟩⟩, false, []⟩
        [9, 9] [.fail (.code 3) 2]).1.state = .error (.code 3))
    ∧ ((process_tls_records .client
          (process_tls_records .client
            ⟨⟨.ok (), ⟨[], [], false, false⟩⟩, false, []⟩
            [9, 9] [.fail (.code 3) 2]).2
          [] []).1.state
        = .ok (.needsMoreTlsData none)) := by
  decide

/-- Claim C4 (amended): when deframing fails during an advance,
`process_tls_records` returns that error and the engine is poisoned with
it (the poisoning inside `ConnectionCore::deframe` is modelled from the
spec), so that the same error is re-reported by every subsequent advance
that obtains a complete record. -/
theorem deframe_error_poisons (role : Role) (c : Conn) (incoming : Bytes)
    (e : TlsError) (n : Nat) (rest : List DeframeEvent)
    (hE : checkEarly role c = none)
    (hP : c.core.common_state.received_plaintext = [])
    (hS : c.core.common_state.sendable_tls = []) :
    process_tls_records role c incoming (.fail e n :: rest)
      = ({ discard := min n incoming.length, state := .error e }, poison c e)
    ∧ (poison c e).core.state = .error e
    ∧ (∀ (inc2 : Bytes) (m : Nat) (res2 : Except TlsError EngineUpdate)
        (rest2 : List DeframeEvent),
        process_tls_records role (poison c e) inc2 (.record m res2 :: rest2)
          = ({ discard := min m inc2.length, state := .error e }, poison c e)) := by
  refine ⟨?_, rfl, ?_⟩
  · have hq := queue_checks_eq_none role c (DeframerBuffer.init incoming) hE hP hS
    have h1 := process_loop_queue_none role (.fail e n :: rest) c
      (DeframerBuffer.init incoming) hq
    show process_loop role (.fail e n :: rest) c (DeframerBuffer.init incoming) = _
    rw [h1]
    simp [deframe_branch, DeframerBuffer.consume, DeframerBuffer.init]
  · intro inc2 m res2 rest2
    have hE2 : checkEarly role (poison c e) = none := checkEarly_poison role c e hE
    have hq := queue_checks_eq_none role (poison c e) (DeframerBuffer.init inc2)
      hE2 hP hS
    have h1 := process_loop_queue_none role (.record m res2 :: rest2) (poison c e)
      (DeframerBuffer.init inc2) hq
    show process_loop role (.record m res2 :: rest2) (poison c e)
        (DeframerBuffer.init inc2) = _
    rw [h1]
    simp [deframe_branch, poison, DeframerBuffer.consume, DeframerBuffer.init]

/-- Claim C4 witness: a deframing failure on a two-byte garbage buffer
returns the error with the bytes discarded, poisons the engine, and the
next record-bearing advance re-reports it. -/
theorem deframe_error_poisons_witness :
    process_tls_records .client ⟨⟨.ok (), ⟨[], [], false, false⟩⟩, false, []⟩
        [9, 9] [.fail (.code 3) 2]
      = ({ discard := 2, state := .error (.code 3) },
         poison ⟨⟨.ok (), ⟨[], [], false, false⟩⟩, false, []⟩ (.code 3))
    ∧ (poison ⟨⟨.ok (), ⟨[], [], false, false⟩⟩, false, []⟩ (.code 3)).core.state
        = .error (.code 3)
    ∧ (∀ (inc2 : Bytes) (m : Nat) (res2 : Except TlsError EngineUpdate)
        (rest2 : List DeframeEvent),
        process_tls_records .client
            (poison ⟨⟨.ok (), ⟨[], [], false, false⟩⟩, false, []⟩ (.code 3))
            inc2 (.record m res2 :: rest2)
          = ({ discard := min m inc2.length, state := .error (.code 3) },
             poison ⟨⟨.ok (), ⟨[], [], false, false⟩⟩, false, []⟩ (.code 3))) :=
  deframe_error_poisons .client ⟨⟨.ok (), ⟨[], [], false, false⟩⟩, false, []⟩
    [9, 9] (.code 3) 2 [] rfl rfl rfl

end Rustls
